import Mathlib

/-!
Shallow embedding of the Bafang display emulator firmware (`src/bafang.ino`).

Bytes are modelled as `Nat` values kept below 256 by explicit `% 256`
truncation exactly where the C++ code truncates (assignment of an `int`
expression to a `uint8_t` field, `uint8_t` increment/decrement wraparound).
Packets are `List Nat` in transmitted byte order; the `Serializable` union
reinterpretation of the packed structs is modelled by listing the fields in
declaration order, with the 16-bit `diameter` field split little-endian
(low byte first), matching the AVR target.
-/

/-- `BAFCommand::WRITE` (0x16). -/
def BAFCommand.WRITE : Nat := 0x16

/-- `BAFCommand::READ` (0x11). -/
def BAFCommand.READ : Nat := 0x11

/-- `BAFPasCommand` enumerator wire values used by `sendNewState`. -/
def BAFPasCommand.PAS0 : Nat := 0x00

def BAFPasCommand.PAS1 : Nat := 0x01

def BAFPasCommand.PAS2 : Nat := 0x0B

def BAFPasCommand.PAS3 : Nat := 0x0C

def BAFPasCommand.PAS4 : Nat := 0x0D

/-- `BAFBacklightCommand::OFF` (0xF0). -/
def BAFBacklightCommand.OFF : Nat := 0xF0

/-- An RGB triple, as in `struct Color { uint8_t r, g, b; }`. -/
structure Color where
  r : Nat
  g : Nat
  b : Nat
deriving DecidableEq, Repr

/-- `static constexpr Color RED {255, 0, 0}`. -/
def RED : Color := ⟨255, 0, 0⟩

/-- `static constexpr Color GREEN {0, 255, 0}`. -/
def GREEN : Color := ⟨0, 255, 0⟩

/-- `static constexpr Color BLUE {0, 0, 255}`. -/
def BLUE : Color := ⟨0, 0, 255⟩

/-- `static constexpr Color MAGENTA {255, 0, 255}`. -/
def MAGENTA : Color := ⟨255, 0, 255⟩

/-- `static constexpr auto MAX_PAS_LEVEL = 4`. -/
def MAX_PAS_LEVEL : Nat := 4

/-- `static constexpr Color PAS2Color[MAX_PAS_LEVEL] { RED, GREEN, BLUE, MAGENTA }`. -/
def PAS2Color : List Color := [RED, GREEN, BLUE, MAGENTA]

/-- The `switch (current_pas_level)` of `sendNewState` mapping the level to
the `BAFPasCommand` wire value (`default` falls back to `PAS0`). -/
def pasCommandOf (current_pas_level : Nat) : Nat :=
  match current_pas_level with
  | 0 => BAFPasCommand.PAS0
  | 1 => BAFPasCommand.PAS1
  | 2 => BAFPasCommand.PAS2
  | 3 => BAFPasCommand.PAS3
  | 4 => BAFPasCommand.PAS4
  | _ => BAFPasCommand.PAS0

/-- `struct baf_pas_pkg_t` (packed, 4 bytes): type, cmd = 0x08, pas, checksum. -/
structure baf_pas_pkg_t where
  type : Nat
  cmd : Nat
  pas : Nat
  checksum : Nat
deriving DecidableEq, Repr

/-- Default-constructed `baf_pas_pkg_t`. -/
def baf_pas_pkg_init : baf_pas_pkg_t :=
  { type := BAFCommand.WRITE, cmd := 0x08, pas := BAFPasCommand.PAS0, checksum := 0 }

/-- Bytes of a `Serializable<baf_pas_pkg_t>` in transmitted order. -/
def baf_pas_pkg_bytes (p : baf_pas_pkg_t) : List Nat :=
  [p.type, p.cmd, p.pas, p.checksum]

/-- `baf_light_pkg_t` (packed, 4 bytes): type, cmd = 0x1A, backlight, checksum. -/
structure baf_light_pkg_t where
  type : Nat
  cmd : Nat
  backlight : Nat
  checksum : Nat
deriving DecidableEq, Repr

/-- Default-constructed `baf_light_pkg_t`; note `checksum = 0`. -/
def baf_light_pkg_init : baf_light_pkg_t :=
  { type := BAFCommand.WRITE, cmd := 0x1A, backlight := BAFBacklightCommand.OFF,
    checksum := 0 }

/-- Bytes of a `Serializable<baf_light_pkg_t>` in transmitted order. -/
def baf_light_pkg_bytes (p : baf_light_pkg_t) : List Nat :=
  [p.type, p.cmd, p.backlight, p.checksum]

/-- `baf_wheel_pkg_t` (packed, 5 bytes): type, cmd = 0x1F, diameter (uint16),
checksum. -/
structure baf_wheel_pkg_t where
  type : Nat
  cmd : Nat
  diameter : Nat
  checksum : Nat
deriving DecidableEq, Repr

/-- Default-constructed `baf_wheel_pkg_t`; `diameter = 0`, `checksum = 0`. -/
def baf_wheel_pkg_init : baf_wheel_pkg_t :=
  { type := BAFCommand.WRITE, cmd := 0x1F, diameter := 0, checksum := 0 }

/-- Bytes of a `Serializable<baf_wheel_pkg_t>` in transmitted order; the
16-bit `diameter` is serialized little-endian (AVR layout). -/
def baf_wheel_pkg_bytes (p : baf_wheel_pkg_t) : List Nat :=
  [p.type, p.cmd, p.diameter % 256, p.diameter / 256 % 256, p.checksum]

/-- `sendNewState()` — the three packets written to `Serial`, in order
(PAS, backlight, wheel), as a function of `current_pas_level`.

Mirrors the source statement by statement: the PAS packet gets its `pas`
field from the switch and its checksum from the `int` sum truncated to
`uint8_t`; the light packet is written default-constructed (its checksum is
never assigned); the wheel packet's checksum is computed while
`diameter = 0` and only afterwards is `diameter` set to `0x90C6`. -/
def sendNewState (current_pas_level : Nat) : List (List Nat) :=
  let pasLevel := pasCommandOf current_pas_level
  let pas : baf_pas_pkg_t := { baf_pas_pkg_init with pas := pasLevel }
  let pas : baf_pas_pkg_t :=
    { pas with checksum := (pas.type + pas.cmd + pas.pas) % 256 }
  let light : baf_light_pkg_t := baf_light_pkg_init
  let wheel : baf_wheel_pkg_t := baf_wheel_pkg_init
  let wheel : baf_wheel_pkg_t :=
    { wheel with checksum := (wheel.type + wheel.cmd + wheel.diameter) % 256 }
  let wheel : baf_wheel_pkg_t := { wheel with diameter := 0x90C6 }
  [baf_pas_pkg_bytes pas, baf_light_pkg_bytes light, baf_wheel_pkg_bytes wheel]

/-- `updatePAS()` — the `setColor` write performed for a given
`current_pas_level`: `some c` when `current_pas_level < MAX_PAS_LEVEL`
(the color read from `PAS2Color`), `none` when the guard fails and no
write happens. -/
def updatePAS (current_pas_level : Nat) : Option Color :=
  if current_pas_level < MAX_PAS_LEVEL then PAS2Color.get? current_pas_level
  else none

/-- Effect of an optional `setColor` write on the LED state: a `some` write
replaces the state, a `none` write leaves it unchanged. -/
def applyLedWrite (w : Option Color) (led : Color) : Color :=
  match w with
  | some c => c
  | none => led

/-- `current_pas_level++` on a `uint8_t`: increment with 8-bit wraparound. -/
def incLevel (l : Nat) : Nat := (l + 1) % 256

/-- `current_pas_level--` on a `uint8_t`: decrement with 8-bit wraparound. -/
def decLevel (l : Nat) : Nat := (l + 255) % 256

/-- The three sampled digital line levels (`buttonState` after the
`digitalRead` calls); `true` is `HIGH`, `false` is `LOW`. -/
structure ButtonLevels where
  up : Bool
  down : Bool
  pwr : Bool
deriving DecidableEq, Repr

/-- The firmware's persistent globals: `lastButtonState[]`,
`current_pas_level`, `dirty`. -/
structure FirmwareState where
  lastButtonState : ButtonLevels
  current_pas_level : Nat
  dirty : Bool
deriving DecidableEq, Repr

/-- The globals as zero/default initialized before the first `loop()` call:
`lastButtonState` all zero (LOW), `current_pas_level = 1`, `dirty = false`. -/
def bootState : FirmwareState :=
  { lastButtonState := { up := false, down := false, pwr := false },
    current_pas_level := 1, dirty := false }

/-- The observable output of one `loop()` iteration: the packets written to
`Serial` (empty when nothing was transmitted) and the `setColor` write, if
any, performed by `updatePAS`. -/
structure LoopOutput where
  packets : List (List Nat)
  ledWrite : Option Color
deriving DecidableEq, Repr

/-- Body of the `for` loop for channel `BTN_UP`: on a change to HIGH,
increment `current_pas_level` and set `dirty`; then store the new level in
`lastButtonState[BTN_UP]`. -/
def stepUp (buttonState : ButtonLevels) (s : FirmwareState) : FirmwareState :=
  let s :=
    if buttonState.up ≠ s.lastButtonState.up then
      if buttonState.up then
        { s with current_pas_level := incLevel s.current_pas_level, dirty := true }
      else s
    else s
  { s with lastButtonState := { s.lastButtonState with up := buttonState.up } }

/-- Body of the `for` loop for channel `BTN_DOWN`: on a change to HIGH,
decrement `current_pas_level` and set `dirty`; then store the new level. -/
def stepDown (buttonState : ButtonLevels) (s : FirmwareState) : FirmwareState :=
  let s :=
    if buttonState.down ≠ s.lastButtonState.down then
      if buttonState.down then
        { s with current_pas_level := decLevel s.current_pas_level, dirty := true }
      else s
    else s
  { s with lastButtonState := { s.lastButtonState with down := buttonState.down } }

/-- Body of the `for` loop for channel `BTN_PWR`: the `switch` has no case
for it, but `dirty = true` still runs on a change to HIGH; then store the
new level. -/
def stepPwr (buttonState : ButtonLevels) (s : FirmwareState) : FirmwareState :=
  let s :=
    if buttonState.pwr ≠ s.lastButtonState.pwr then
      if buttonState.pwr then { s with dirty := true } else s
    else s
  { s with lastButtonState := { s.lastButtonState with pwr := buttonState.pwr } }

/-- One `loop()` iteration: process the three channels in order
(`BTN_UP`, `BTN_DOWN`, `BTN_PWR`), then, when `dirty`, run `updatePAS` and
`sendNewState` and clear `dirty`. Returns the new globals and the
observable output of the iteration. -/
def loopStep (s : FirmwareState) (buttonState : ButtonLevels) :
    FirmwareState × LoopOutput :=
  let s := stepUp buttonState s
  let s := stepDown buttonState s
  let s := stepPwr buttonState s
  if s.dirty then
    ({ s with dirty := false },
     { packets := sendNewState s.current_pas_level,
       ledWrite := updatePAS s.current_pas_level })
  else
    (s, { packets := [], ledWrite := none })

/-- The checksum invariant claimed by the spec for a transmitted packet:
the last byte equals the sum of all preceding bytes truncated to 8 bits. -/
def checksumOk (pkt : List Nat) : Prop :=
  pkt.getLast? = some (pkt.dropLast.sum % 256)

instance (pkt : List Nat) : Decidable (checksumOk pkt) := by
  unfold checksumOk; infer_instance

/-- The PAS sub-command table exactly as the spec words it: level 0→0x00,
1→0x01, 2→0x0B, 3→0x0C, 4→0x0D, any other value→0x00. -/
def pasMapSpec (lvl : Nat) : Nat :=
  match lvl with
  | 0 => 0x00
  | 1 => 0x01
  | 2 => 0x0B
  | 3 => 0x0C
  | 4 => 0x0D
  | _ => 0x00

/-- The PAS packet as the spec words it:
`[0x16, 0x08, mappedSubCommand, (0x16 + 0x08 + mappedSubCommand) mod 256]`. -/
def pasPacketSpec (lvl : Nat) : List Nat :=
  [0x16, 0x08, pasMapSpec lvl, (0x16 + 0x08 + pasMapSpec lvl) % 256]

theorem pasCommandOf_eq_spec (lvl : Nat) : pasCommandOf lvl = pasMapSpec lvl := by
  unfold pasCommandOf pasMapSpec
  match lvl with
  | 0 => rfl
  | 1 => rfl
  | 2 => rfl
  | 3 => rfl
  | 4 => rfl
  | (n + 5) => rfl

/-- C2: for every assist level value, the transmitted PAS packet (the first
packet of `sendNewState`) is `[0x16, 0x08, m, c]` with `m` given by the
fixed table (0→0x00, 1→0x01, 2→0x0B, 3→0x0C, 4→0x0D, default→0x00) and
`c = (0x16 + 0x08 + m) mod 256`. -/
theorem c2_pas_packet (lvl : Nat) :
    (sendNewState lvl).head? = some (pasPacketSpec lvl) := by
  simp [sendNewState, pasPacketSpec, baf_pas_pkg_bytes, baf_pas_pkg_init,
    BAFCommand.WRITE, pasCommandOf_eq_spec]

/-- C3: the transmitted wheel packet (the third packet of `sendNewState`)
always has checksum byte `(0x16 + 0x1F + 0) mod 256 = 0x35` — computed
while the diameter field is zero — while its diameter bytes carry the
constant 0x90C6 little-endian (0xC6 then 0x90), so the checksum byte does
not match the transmitted bytes. -/
theorem c3_wheel_packet (lvl : Nat) :
    (sendNewState lvl).get? 2 = some [0x16, 0x1F, 0xC6, 0x90, 0x35] ∧
    0x35 = (0x16 + 0x1F + 0) % 256 ∧
    ¬ checksumOk [0x16, 0x1F, 0xC6, 0x90, 0x35] := by
  refine ⟨?_, by decide, by decide⟩
  simp [sendNewState, baf_wheel_pkg_bytes, baf_wheel_pkg_init, BAFCommand.WRITE]

/-- C4 counterexample: the claim says the transmitted backlight packet is
`[0x16, 0x1A, 0xF0, c]` with `c = (0x16 + 0x1A + 0xF0) mod 256 = 0x20`;
the packet actually transmitted at level 1 has last byte 0x00 instead. -/
theorem c4_counterexample :
    ¬ ((sendNewState 1).get? 1 =
        some [0x16, 0x1A, 0xF0, (0x16 + 0x1A + 0xF0) % 256]) := by
  decide

/-- C4 amended: on every transmission cycle the backlight packet sent is
exactly `[0x16, 0x1A, 0xF0, 0x00]`, regardless of any program state — its
checksum field keeps its zero initialization and is never computed. -/
theorem c4_backlight_packet (lvl : Nat) :
    (sendNewState lvl).get? 1 = some [0x16, 0x1A, 0xF0, 0x00] := by
  simp [sendNewState, baf_light_pkg_bytes, baf_light_pkg_init,
    BAFCommand.WRITE, BAFBacklightCommand.OFF]

/-- C1 counterexample: not every packet transmitted by `sendNewState`
satisfies the checksum invariant — at level 1 the backlight and wheel
packets both violate it. -/
theorem c1_counterexample :
    ¬ (∀ pkt ∈ sendNewState 1, checksumOk pkt) := by
  decide

/-- C1 amended: of the three packets transmitted each cycle, only the PAS
packet's last byte equals the sum of its preceding bytes mod 256; the
backlight packet ends in 0x00 (checksum never computed) and the wheel
packet ends in 0x35 (checksum computed before the diameter was written),
and neither of those equals the sum of its preceding bytes mod 256. -/
theorem c1_checksums (lvl : Nat) :
    ∃ pas, sendNewState lvl =
        [pas, [0x16, 0x1A, 0xF0, 0x00], [0x16, 0x1F, 0xC6, 0x90, 0x35]] ∧
      checksumOk pas ∧
      ¬ checksumOk [0x16, 0x1A, 0xF0, 0x00] ∧
      ¬ checksumOk [0x16, 0x1F, 0xC6, 0x90, 0x35] := by
  refine ⟨[0x16, 0x08, pasCommandOf lvl, (0x16 + 0x08 + pasCommandOf lvl) % 256],
    ?_, ?_, by decide, by decide⟩
  · simp [sendNewState, baf_pas_pkg_bytes, baf_pas_pkg_init,
      baf_light_pkg_bytes, baf_light_pkg_init, baf_wheel_pkg_bytes,
      baf_wheel_pkg_init, BAFCommand.WRITE, BAFBacklightCommand.OFF]
  · unfold checksumOk
    simp
    omega

/-- C7 counterexample: with the 8-bit assist-level counter at 1, a single
decrement yields 0, not the maximum representable value 255. -/
theorem c7_counterexample : ¬ (decLevel 1 = 255) := by decide

/-- C7 amended: with the 8-bit assist-level counter at 1, a single
decrement yields 0; a decrement from 0 wraps to the maximum representable
value 255 (no clamping at 0); an increment from that maximum wraps the
counter back to 0. -/
theorem c7_wraparound : decLevel 1 = 0 ∧ decLevel 0 = 255 ∧ incLevel 255 = 0 := by
  decide

/-- C8: the LED update writes red for assist level 0, green for 1, blue
for 2, magenta for 3, and for every level ≥ 4 performs no write at all,
leaving the LED state unchanged. -/
theorem c8_led_mapping :
    updatePAS 0 = some RED ∧ updatePAS 1 = some GREEN ∧
    updatePAS 2 = some BLUE ∧ updatePAS 3 = some MAGENTA ∧
    ∀ lvl, 4 ≤ lvl → updatePAS lvl = none ∧
      ∀ led, applyLedWrite (updatePAS lvl) led = led := by
  refine ⟨by decide, by decide, by decide, by decide, ?_⟩
  intro lvl h
  have hlt : ¬ lvl < MAX_PAS_LEVEL := by unfold MAX_PAS_LEVEL; omega
  exact ⟨by simp [updatePAS, hlt], fun led => by simp [applyLedWrite, updatePAS, hlt]⟩

/-- C8 witness: at level 5 no write happens and the LED keeps its previous
color. -/
theorem c8_led_mapping_witness :
    updatePAS 5 = none ∧ applyLedWrite (updatePAS 5) RED = RED :=
  ⟨(c8_led_mapping.2.2.2.2 5 (by decide)).1,
   (c8_led_mapping.2.2.2.2 5 (by decide)).2 RED⟩

/-- C5 counterexample: from the boot state (level 1), a single UP edge does
NOT transmit the PAS packet `[0x16, 0x08, 0x01, 0x1F]` — the level is
incremented to 2 before encoding, so the packet carries sub-command 0x0B. -/
theorem c5_counterexample :
    ¬ ((loopStep bootState { up := true, down := false, pwr := false }).2.packets.head?
        = some [0x16, 0x08, 0x01, 0x1F]) := by
  decide

/-- C5 amended: from any non-dirty state with assist level 1, a single UP
edge (UP line changes to HIGH while DOWN and POWER are unchanged) makes the
control loop transmit, as its first packet that cycle, the PAS packet
`[0x16, 0x08, 0x0B, 0x29]` for the incremented level 2. -/
theorem c5_up_edge_packet (s : FirmwareState) (inp : ButtonLevels)
    (hlvl : s.current_pas_level = 1) (hd : s.dirty = false)
    (hup : s.lastButtonState.up = false) (hu : inp.up = true)
    (hdn : inp.down = s.lastButtonState.down)
    (hp : inp.pwr = s.lastButtonState.pwr) :
    (loopStep s inp).2.packets.head? = some [0x16, 0x08, 0x0B, 0x29] := by
  rcases s with ⟨⟨lu, ld, lp⟩, lvl, d⟩
  rcases inp with ⟨u, dn, p⟩
  dsimp at hlvl hd hup hu hdn hp
  subst hlvl hd hup hu hdn hp
  cases dn <;> cases p <;> rfl

/-- C5 witness: the amended statement at the boot state itself. -/
theorem c5_up_edge_packet_witness :
    (loopStep bootState { up := true, down := false, pwr := false }).2.packets.head?
      = some [0x16, 0x08, 0x0B, 0x29] :=
  c5_up_edge_packet bootState { up := true, down := false, pwr := false }
    rfl rfl rfl rfl rfl rfl

/-- C6 counterexample: an iteration in which only the POWER channel
produces an edge (POWER line changes to HIGH, UP and DOWN unchanged) DOES
transmit packets that cycle, contrary to the claim. -/
theorem c6_counterexample :
    ¬ ((loopStep
          { lastButtonState := { up := true, down := true, pwr := false },
            current_pas_level := 1, dirty := false }
          { up := true, down := true, pwr := true }).2.packets = []) := by
  decide

/-- C6 amended: if only the POWER channel produces an edge in an iteration,
the assist level is unchanged, but the dirty flag IS set by that edge, so
the full packet transmission runs that cycle (the three packets for the
unchanged level are sent and the dirty flag is cleared again). -/
theorem c6_pwr_edge (s : FirmwareState) (inp : ButtonLevels)
    (hd : s.dirty = false)
    (hu : inp.up = s.lastButtonState.up)
    (hdn : inp.down = s.lastButtonState.down)
    (hp : inp.pwr = true) (hlp : s.lastButtonState.pwr = false) :
    (loopStep s inp).1.current_pas_level = s.current_pas_level ∧
    (loopStep s inp).2.packets = sendNewState s.current_pas_level ∧
    (loopStep s inp).2.packets ≠ [] := by
  rcases s with ⟨⟨lu, ld, lp⟩, lvl, d⟩
  rcases inp with ⟨u, dn, p⟩
  dsimp at hd hu hdn hp hlp
  subst hd hu hdn hp hlp
  cases u <;> cases dn <;>
    simp [loopStep, stepUp, stepDown, stepPwr, sendNewState]

/-- C6 witness: the amended statement at a concrete settled state. -/
theorem c6_pwr_edge_witness :
    (loopStep
        { lastButtonState := { up := true, down := true, pwr := false },
          current_pas_level := 1, dirty := false }
        { up := true, down := true, pwr := true }).2.packets
      = sendNewState 1 :=
  (c6_pwr_edge
    { lastButtonState := { up := true, down := true, pwr := false },
      current_pas_level := 1, dirty := false }
    { up := true, down := true, pwr := true }
    rfl rfl rfl rfl rfl).2.1

/-- C9: an assist-level action fires only on a transition to the
released/idle (HIGH) line level: a change to HIGH on UP increments the
level, a change to HIGH on DOWN decrements it, and when neither UP nor
DOWN changes to HIGH (including any change to LOW, and any POWER edge)
the level is unchanged. -/
theorem c9_edge_actions (s : FirmwareState) (inp : ButtonLevels) :
    (inp.up = true → s.lastButtonState.up = false →
      (inp.down = s.lastButtonState.down ∨ inp.down = false) →
      (loopStep s inp).1.current_pas_level = incLevel s.current_pas_level) ∧
    (inp.down = true → s.lastButtonState.down = false →
      (inp.up = s.lastButtonState.up ∨ inp.up = false) →
      (loopStep s inp).1.current_pas_level = decLevel s.current_pas_level) ∧
    ((inp.up = s.lastButtonState.up ∨ inp.up = false) →
      (inp.down = s.lastButtonState.down ∨ inp.down = false) →
      (loopStep s inp).1.current_pas_level = s.current_pas_level) := by
  rcases s with ⟨⟨lu, ld, lp⟩, lvl, d⟩
  rcases inp with ⟨u, dn, p⟩
  cases u <;> cases dn <;> cases p <;> cases lu <;> cases ld <;> cases lp <;>
    cases d <;> simp [loopStep, stepUp, stepDown, stepPwr]

/-- C9 witness: from the boot state, an UP-only change to HIGH increments
the level; a DOWN-only change to HIGH decrements it; a POWER-only change
to HIGH leaves it unchanged. -/
theorem c9_edge_actions_witness :
    (loopStep bootState { up := true, down := false, pwr := false }).1.current_pas_level
        = incLevel bootState.current_pas_level ∧
    (loopStep bootState { up := false, down := true, pwr := false }).1.current_pas_level
        = decLevel bootState.current_pas_level ∧
    (loopStep bootState { up := false, down := false, pwr := true }).1.current_pas_level
        = bootState.current_pas_level :=
  ⟨(c9_edge_actions bootState { up := true, down := false, pwr := false }).1
      rfl rfl (Or.inl rfl),
   (c9_edge_actions bootState { up := false, down := true, pwr := false }).2.1
      rfl rfl (Or.inl rfl),
   (c9_edge_actions bootState { up := false, down := false, pwr := true }).2.2
      (Or.inl rfl) (Or.inl rfl)⟩

/-- C10: at the end of every control-loop iteration the stored previous
button states equal the sampled button states on all three channels, and
the dirty flag is false — it never persists across iterations. -/
theorem c10_loop_invariant (s : FirmwareState) (inp : ButtonLevels) :
    (loopStep s inp).1.lastButtonState = inp ∧
    (loopStep s inp).1.dirty = false := by
  rcases s with ⟨⟨lu, ld, lp⟩, lvl, d⟩
  rcases inp with ⟨u, dn, p⟩
  cases u <;> cases dn <;> cases p <;> cases lu <;> cases ld <;> cases lp <;>
    cases d <;> simp [loopStep, stepUp, stepDown, stepPwr]
